import Mathlib

/-!
Verification development for the progressive-GAN trainer
(`trainer.py` of lijianshe02/GenerativeSkinLesion).

The staged training controller, optimizer rebinding, EMA update and
adversarial-step arithmetic of `trainer.py` are shallowly embedded below.
Real-valued quantities are modelled by rationals; Python exceptions are
modelled by `Except`; the progressive-network collaborator (`networks.py`,
not part of the trainer source) is modelled from the spec's contract.
-/

namespace GenerativeSkinLesion

/-! ## Progressive-network contract

Modelled from the spec: `networks.py` is an external collaborator, only its
contract is given.  A progressive network owns a number of resolution
blocks and a fade-in state: before any growth (or after a flush) there is
no fade-in module, so querying or updating alpha raises; while growing,
the fade-in module stores the blend weight.  A `corrupted` state stands
for a network whose internals are desynchronized, so that attribute
traversal to the fade-in module fails with an exception that is not the
mere absence of a fade-in state. -/

/-- Error raised by an alpha query on a network without a usable fade-in
module: either no fade-in state exists, or the topology is desynchronized. -/
inductive GetAlphaErr
  | noFadein
  | topologyDesync
deriving DecidableEq

/-- Fade-in state of a progressive network. -/
inductive Fade
  | base
  | growing (alpha : ℚ)
  | corrupted
deriving DecidableEq

/-- A progressive network: resolution-block count plus fade-in state. -/
structure Net where
  blocks : ℕ
  fade : Fade
deriving DecidableEq

/-- Modelled from the spec: `grow_network` appends a new untrained block and
enters the blending sub-state, with alpha treated as 0 immediately after
growth. -/
def grow_network (n : Net) : Net :=
  { blocks := n.blocks + 1, fade := Fade.growing 0 }

/-- Modelled from the spec: `update_alpha delta` adds `delta` to the blend
weight, clamped at 1.  On a network with no fade-in module the attribute
traversal `model.fadein` raises, which the caller does not catch here. -/
def update_alpha (delta : ℚ) (n : Net) : Except String Net :=
  match n.fade with
  | Fade.growing a => Except.ok { n with fade := Fade.growing (min (a + delta) 1) }
  | Fade.base => Except.error "AttributeError: fadein"
  | Fade.corrupted => Except.error "fadein traversal failed: topology desynchronized"

/-- Modelled from the spec: `get_alpha` returns the blend weight and fails
when no fade-in state exists (or the topology is desynchronized). -/
def get_alpha (n : Net) : Except GetAlphaErr ℚ :=
  match n.fade with
  | Fade.growing a => Except.ok a
  | Fade.base => Except.error GetAlphaErr.noFadein
  | Fade.corrupted => Except.error GetAlphaErr.topologyDesync

/-- Modelled from the spec: `flush_network` collapses the blending sub-state,
discarding the superseded path; afterwards no fade-in state exists. -/
def flush_network (n : Net) : Net :=
  { blocks := n.blocks, fade := Fade.base }

/-- Modelled from the spec: the cardinality of the trainable-parameter set
changes at growth and flush events; while blending, the extra fade-in path
contributes one more parameter. -/
def netParamCount (n : Net) : ℕ :=
  2 * n.blocks + (match n.fade with | Fade.growing _ => 1 | _ => 0)

/-- Parameter identities of a network's current parameter set, as the
index keys an optimizer state dict uses. -/
def netParamIds (n : Net) : List ℕ :=
  List.range (netParamCount n)

/-! ## Adam optimizer (trainer.py lines 53-54 and 107-134) -/

/-- Adam hyperparameters as passed at every construction site. -/
structure AdamHyper where
  lr : ℚ
  beta1 : ℚ
  beta2 : ℚ
  eps : ℚ
  weight_decay : ℚ
deriving DecidableEq

/-- The hyperparameters every `optim.Adam(...)` call in trainer.py uses:
`lr=self.lr, betas=(0,0.99), eps=1e-8, weight_decay=0.`. -/
def adamHyper (lr : ℚ) : AdamHyper :=
  { lr := lr, beta1 := 0, beta2 := 99 / 100, eps := 1 / 100000000, weight_decay := 0 }

/-- An Adam optimizer: hyperparameters, the parameter identities of its
single param group, and per-parameter moment state keyed by identity. -/
structure Adam where
  hyper : AdamHyper
  paramIds : List ℕ
  state : List (ℕ × (ℚ × ℚ))
deriving DecidableEq

/-- A freshly constructed Adam optimizer: empty per-parameter state. -/
def mkAdam (lr : ℚ) (paramIds : List ℕ) : Adam :=
  { hyper := adamHyper lr, paramIds := paramIds, state := [] }

/-- Optimizer rebinding (trainer.py lines 112-122 / 124-134): construct a
brand-new Adam over the new parameter ids, keep the old per-parameter state
entries whose keys are among the new ids, drop the rest, and install the
merged state with the new param group. -/
def rebindOpt (lr : ℚ) (old : Adam) (newParamIds : List ℕ) : Adam :=
  { mkAdam lr newParamIds with
    state := old.state.filter (fun kv => decide (kv.1 ∈ newParamIds)) }

/-! ## Trainer state and the stage/fade-in controller -/

/-- The mutable trainer state that `update_trainer` touches. -/
structure TrainerState where
  size : ℕ
  lr : ℚ
  tickers : ℕ
  G : Net
  D : Net
  G_EMA : Net
  opt_G : Adam
  opt_D : Adam
deriving DecidableEq

/-- `int(math.log2(self.size/4)) + 1` (trainer.py lines 80 and 207). -/
def totalStages (size : ℕ) : ℕ :=
  Nat.log2 (size / 4) + 1

/-- The `try: ... get_alpha() except: current_alpha = 1` block
(trainer.py lines 102-105): a bare `except` swallows every exception. -/
def archiveAlpha : Except GetAlphaErr ℚ → ℚ
  | Except.ok a => a
  | Except.error _ => 1

/-- The common tail of `update_trainer`'s stage>1 path (trainer.py lines
101-134): archive alpha through the bare try/except, and when `flag_opt`
is set rebind both optimizers against the networks' current parameter
sets. -/
def archiveAndRebind (lrv : ℚ) (p : TrainerState × Bool) : TrainerState × ℚ :=
  let current_alpha := archiveAlpha (get_alpha p.1.G)
  let st2 :=
    if p.2 then
      { p.1 with opt_G := rebindOpt lrv p.1.opt_G (netParamIds p.1.G),
                 opt_D := rebindOpt lrv p.1.opt_D (netParamIds p.1.D) }
    else p.1
  (st2, current_alpha)

/-- `Trainer.update_trainer` (trainer.py lines 70-135).  Stage 1 returns
alpha 0 and does nothing.  Otherwise: assert the stage bound, compute
`delta = 1/tickers` (a ZeroDivisionError when `tickers = 0`), dispatch on
the tick (grow at 0 with `flag_opt`, fade in strictly between 0 and
`tickers` without it, flush at `tickers` with it, no-op past `tickers`),
then run the common archive/rebind tail. -/
def update_trainer (st : TrainerState) (stage inter_ticker : ℕ) :
    Except String (TrainerState × ℚ) :=
  if stage = 1 then
    Except.ok (st, 0)
  else if stage ≤ totalStages st.size then
    if st.tickers = 0 then
      Except.error "ZeroDivisionError: delta = 1. / self.tickers"
    else if inter_ticker = 0 then
      Except.ok (archiveAndRebind st.lr
        ({ st with G := grow_network st.G, D := grow_network st.D,
                   G_EMA := grow_network st.G_EMA }, true))
    else if inter_ticker < st.tickers then
      do
        let g ← update_alpha (1 / (st.tickers : ℚ)) st.G
        let d ← update_alpha (1 / (st.tickers : ℚ)) st.D
        let e ← update_alpha (1 / (st.tickers : ℚ)) st.G_EMA
        Except.ok (archiveAndRebind st.lr
          ({ st with G := g, D := d, G_EMA := e }, false))
    else if inter_ticker = st.tickers then
      Except.ok (archiveAndRebind st.lr
        ({ st with G := flush_network st.G, D := flush_network st.D,
                   G_EMA := flush_network st.G_EMA }, true))
    else
      Except.ok (archiveAndRebind st.lr (st, false))
  else
    Except.error "Invalid stage number!"

/-- Running `update_trainer` on the consecutive ticks `0, 1, ..., t` of one
stage, as the training loop does (trainer.py lines 217-242), returning the
state and the alpha value the call at tick `t` returns. -/
def runTicks (st : TrainerState) (stage : ℕ) : ℕ → Except String (TrainerState × ℚ)
  | 0 => update_trainer st stage 0
  | t + 1 => do
      let p ← runTicks st stage t
      update_trainer p.1 stage (t + 1)

/-! ## EMA shadow update (trainer.py lines 136-147) -/

/-- `Trainer.update_moving_average`: for every named shadow parameter, look
up the live generator parameter of the same name in
`dict(self.G.module.named_parameters())` (a KeyError aborts the update, as
the spec demands for a desynchronized shadow) and blend
`decay * W_EMA + (1 - decay) * W_G`.  Parameter values are modelled as
rationals; the detach and device transfer do not change the value. -/
def update_moving_average (decay : ℚ) (paramsG : List (String × ℚ)) :
    List (String × ℚ) → Option (List (String × ℚ))
  | [] => some []
  | p :: rest =>
    match paramsG.lookup p.1 with
    | none => none
    | some pG =>
      (update_moving_average decay paramsG rest).map
        (fun tail => (p.1, decay * p.2 + (1 - decay) * pG) :: tail)

/-! ## Adversarial step (trainer.py lines 148-202)

The networks and autograd are collaborators: their forward passes, the
gradient-penalty autograd computation, and the backward+optimizer-step
mutation are oracles, so that the arithmetic the trainer itself performs
on their outputs is exact. -/

/-- `torch.mean` of a per-sample score list. -/
def mean (xs : List ℚ) : ℚ :=
  xs.sum / (xs.length : ℚ)

/-- The state `update_network` may touch, plus the EMA shadow parameters it
must not touch. -/
structure GanState where
  Gparams : List ℚ
  Dparams : List ℚ
  opt_G : Adam
  opt_D : Adam
  G_EMA_params : List (String × ℚ)
deriving DecidableEq

/-- Oracles for the network collaborators: discriminator and generator
forward passes, the autograd gradient-penalty value, and the combined
backward-pass/optimizer-step mutation of parameters and moment state. -/
structure NetOracle where
  Dforward : List ℚ → List (List ℚ) → List ℚ
  Gforward : List ℚ → List (List ℚ) → List (List ℚ)
  gradPenaltyOracle : List ℚ → List (List ℚ) → List (List ℚ) → ℚ
  backstepD : ℚ → List ℚ → Adam → List ℚ × Adam
  backstepG : ℚ → List ℚ → Adam → List ℚ × Adam

/-- `Trainer.update_network` (trainer.py lines 148-191): one discriminator
step (real score, drift `0.001 * mean(score^2)`, fake score on generated
data, gradient penalty, loss `loss_fake - loss_real + drift + gp`, the
monitoring scalar `Wasserstein_Dist = loss_fake - loss_real` taken before
the backward pass) followed by one generator step (fresh latent batch,
loss `-mean(D(G(z)))` against the just-updated discriminator), returning
`(G_loss, D_loss, Wasserstein_Dist)`. -/
def update_network (o : NetOracle) (st : GanState)
    (real_data z1 z2 : List (List ℚ)) : GanState × (ℚ × ℚ × ℚ) :=
  let pred_real := o.Dforward st.Dparams real_data
  let loss_real := mean pred_real
  let loss_real_drift := (1 / 1000) * mean (pred_real.map (fun x => x ^ 2))
  let fake_data := o.Gforward st.Gparams z1
  let pred_fake := o.Dforward st.Dparams fake_data
  let loss_fake := mean pred_fake
  let gp := o.gradPenaltyOracle st.Dparams real_data fake_data
  let D_loss := loss_fake - loss_real + loss_real_drift + gp
  let W_Dist := loss_fake - loss_real
  let stepD := o.backstepD D_loss st.Dparams st.opt_D
  let fake_data2 := o.Gforward st.Gparams z2
  let pred_fake2 := o.Dforward stepD.1 fake_data2
  let G_loss := -(mean pred_fake2)
  let stepG := o.backstepG G_loss st.Gparams st.opt_G
  ({ st with Dparams := stepD.1, opt_D := stepD.2,
             Gparams := stepG.1, opt_G := stepG.2 },
   (G_loss, D_loss, W_Dist))

/-! ## Trainer construction attribute accesses (trainer.py lines 24-69, 203-216) -/

/-- The configuration surface read by `Trainer.__init__`. -/
structure Config where
  nc : ℕ
  nz : ℕ
  init_size : ℕ
  size : ℕ
  batch_size : ℕ
  unit_epoch : ℕ
  num_aug : ℕ
  lr : ℚ
  outf : String

/-- The instance attribute names `Trainer.__init__` has assigned by the time
it calls `init_trainer` (trainer.py lines 27-38): note `devie` at line 36. -/
def initAssignedAttrs (_c : Config) : List String :=
  ["nc", "nz", "init_size", "size", "batch_size", "unit_epoch", "num_aug",
   "lr", "outf", "devie", "device_ids", "writer"]

/-- Python attribute access: reading a name never assigned on the instance
raises AttributeError. -/
def getattrOrError (attrs : List String) (name : String) : Except String Unit :=
  if name ∈ attrs then Except.ok () else Except.error ("AttributeError: " ++ name)

/-- Constructing a `Trainer`: `__init__` performs its assignments and then
calls `init_trainer`, whose first read of an instance attribute that was
never assigned is `self.device` at line 47 (`__init__` stored the device
under `devie`). -/
def trainerConstruct (c : Config) : Except String Unit := do
  let attrs := initAssignedAttrs c
  let _ ← getattrOrError attrs "device"
  Except.ok ()

/-- The attribute name `Trainer.train` reads at line 216
(`self.initial_size`), although `__init__` stored it as `init_size`. -/
def trainSizeAttrRead : String := "initial_size"

/-! ## Data-loader worker seeding (trainer.py lines 18-22 and 66-67) -/

/-- The value `init_trainer` passes as `worker_init_fn` at line 67: the
source writes `worker_init_fn=_worker_init_fn_()`, calling the function in
the parent process; a Python function without a return statement returns
None. -/
def worker_init_fn_passed : Option (ℕ → ℕ) := none

/-- Modelled from the spec: the augmentation-randomness state a data-loading
worker starts with.  With no worker-init function the worker inherits the
forked parent state unchanged; with one, the function derives the state
from the worker index. -/
def workerAugState (initFn : Option (ℕ → ℕ)) (parentState workerId : ℕ) : ℕ :=
  match initFn with
  | none => parentState
  | some f => f workerId

/-! ## Training-loop tick budget (trainer.py lines 69 and 209-218) -/

/-- `self.tickers = self.unit_epoch * self.num_aug * len(self.dataloader)`
(trainer.py line 69), computed once at initialization. -/
def tickersOf (unit_epoch num_aug batches : ℕ) : ℕ :=
  unit_epoch * num_aug * batches

/-- The per-stage epoch budget `M` (trainer.py lines 210-215). -/
def epochBudget (unit_epoch stage : ℕ) : ℕ :=
  if stage = 1 then unit_epoch
  else if stage ≤ 4 then unit_epoch * 2
  else unit_epoch * 3

/-- Ticks executed within one stage: the tick counter is incremented once
per batch across `M` epochs of `num_aug` augmentation passes
(trainer.py lines 217-242). -/
def ticksInStage (unit_epoch num_aug batches stage : ℕ) : ℕ :=
  epochBudget unit_epoch stage * num_aug * batches

/-! ## Helper lemmas -/

theorem totalStages_pos (size : ℕ) : 1 ≤ totalStages size :=
  Nat.succ_le_succ (Nat.zero_le _)

theorem ok_bind {α β : Type} (a : α) (f : α → Except String β) :
    (Except.ok a >>= f : Except String β) = f a := rfl

theorem rebindOpt_hyper (lrv : ℚ) (old : Adam) (ids : List ℕ) :
    (rebindOpt lrv old ids).hyper = adamHyper lrv := rfl

theorem rebindOpt_paramIds (lrv : ℚ) (old : Adam) (ids : List ℕ) :
    (rebindOpt lrv old ids).paramIds = ids := rfl

theorem rebindOpt_mem_state (lrv : ℚ) (old : Adam) (ids : List ℕ)
    (kv : ℕ × (ℚ × ℚ)) :
    kv ∈ (rebindOpt lrv old ids).state ↔ kv ∈ old.state ∧ kv.1 ∈ ids := by
  simp [rebindOpt, mkAdam, List.mem_filter]

/-- A concrete trainer state used to instantiate theorems: size 8 (so two
total stages), three ticks per stage, one block per network, no fade-in
state yet, freshly built optimizers carrying one recorded moment entry. -/
def sampleState : TrainerState :=
  { size := 8
    lr := 1 / 1000
    tickers := 3
    G := { blocks := 1, fade := Fade.base }
    D := { blocks := 1, fade := Fade.base }
    G_EMA := { blocks := 1, fade := Fade.base }
    opt_G := { hyper := adamHyper (1 / 1000), paramIds := [0, 1],
               state := [(0, (1 / 2, 1 / 4)), (7, (1, 1))] }
    opt_D := { hyper := adamHyper (1 / 1000), paramIds := [0, 1],
               state := [(1, (1 / 3, 1 / 9)), (9, (2, 2))] } }

/-- Evaluation of `update_trainer` at tick 0: grow all three networks and
rebind both optimizers; the archived alpha is the fresh fade-in's 0. -/
theorem update_trainer_zero (st : TrainerState) (stage : ℕ)
    (h1 : stage ≠ 1) (h2 : stage ≤ totalStages st.size) (h3 : st.tickers ≠ 0) :
    update_trainer st stage 0 = Except.ok
      ({ st with G := grow_network st.G, D := grow_network st.D,
                 G_EMA := grow_network st.G_EMA,
                 opt_G := rebindOpt st.lr st.opt_G (netParamIds (grow_network st.G)),
                 opt_D := rebindOpt st.lr st.opt_D (netParamIds (grow_network st.D)) }, 0) := by
  unfold update_trainer
  rw [if_neg h1, if_pos h2, if_neg h3, if_pos rfl]
  rfl

/-- Evaluation of `update_trainer` strictly between 0 and `tickers`, when
all three networks carry fade-in weight `a` and another `delta` keeps the
weight at most 1: each fade-in advances by `delta = 1/tickers` and the
advanced weight is returned; no optimizer is rebound. -/
theorem update_trainer_mid (st : TrainerState) (stage tick : ℕ) (a : ℚ)
    (h1 : stage ≠ 1) (h2 : stage ≤ totalStages st.size)
    (h0 : tick ≠ 0) (hlt : tick < st.tickers)
    (hG : st.G.fade = Fade.growing a) (hD : st.D.fade = Fade.growing a)
    (hE : st.G_EMA.fade = Fade.growing a)
    (hcl : a + 1 / (st.tickers : ℚ) ≤ 1) :
    update_trainer st stage tick = Except.ok
      ({ st with G := { st.G with fade := Fade.growing (a + 1 / (st.tickers : ℚ)) },
                 D := { st.D with fade := Fade.growing (a + 1 / (st.tickers : ℚ)) },
                 G_EMA := { st.G_EMA with fade := Fade.growing (a + 1 / (st.tickers : ℚ)) } },
       a + 1 / (st.tickers : ℚ)) := by
  have h3 : st.tickers ≠ 0 := by omega
  have hmin : min (a + 1 / (st.tickers : ℚ)) 1 = a + 1 / (st.tickers : ℚ) :=
    min_eq_left hcl
  unfold update_trainer
  rw [if_neg h1, if_pos h2, if_neg h3, if_neg h0, if_pos hlt]
  rw [update_alpha, hG, update_alpha, hD, update_alpha, hE]
  simp only [ok_bind, hmin]
  rfl

/-- Evaluation of `update_trainer` at tick = `tickers` (nonzero): flush all
three networks, rebind both optimizers; the alpha query now fails and the
bare except archives alpha 1. -/
theorem update_trainer_flush (st : TrainerState) (stage : ℕ)
    (h1 : stage ≠ 1) (h2 : stage ≤ totalStages st.size) (h3 : st.tickers ≠ 0) :
    update_trainer st stage st.tickers = Except.ok
      ({ st with G := flush_network st.G, D := flush_network st.D,
                 G_EMA := flush_network st.G_EMA,
                 opt_G := rebindOpt st.lr st.opt_G (netParamIds (flush_network st.G)),
                 opt_D := rebindOpt st.lr st.opt_D (netParamIds (flush_network st.D)) }, 1) := by
  unfold update_trainer
  rw [if_neg h1, if_pos h2, if_neg h3, if_neg h3, if_neg (lt_irrefl st.tickers), if_pos rfl]
  rfl

/-- Evaluation of `update_trainer` past `tickers`: the defensive branch
leaves the whole state unchanged and returns the archived alpha. -/
theorem update_trainer_defensive (st : TrainerState) (stage tick : ℕ)
    (h1 : stage ≠ 1) (h2 : stage ≤ totalStages st.size) (h3 : st.tickers ≠ 0)
    (hgt : st.tickers < tick) :
    update_trainer st stage tick = Except.ok (st, archiveAlpha (get_alpha st.G)) := by
  have h0 : tick ≠ 0 := by omega
  unfold update_trainer
  rw [if_neg h1, if_pos h2, if_neg h3, if_neg h0,
    if_neg (not_lt.mpr (le_of_lt hgt)), if_neg (Nat.ne_of_gt hgt)]
  rfl

/-! ## Claim theorems -/

/-- C7: for stage 1 and every tick value, `update_trainer` returns alpha 0
and leaves the whole trainer state (networks, EMA shadow, both optimizers)
unchanged: no growth, flush, alpha-update or rebinding side effect. -/
theorem stage_one_no_side_effects (st : TrainerState) (tick : ℕ) :
    update_trainer st 1 tick = Except.ok (st, 0) := rfl

/-- C8: for every stage number exceeding the computed total stage count
`floor(log2(size/4)) + 1`, `update_trainer` fails fatally with the
assertion "Invalid stage number!" instead of clamping or continuing. -/
theorem invalid_stage_fatal (st : TrainerState) (stage tick : ℕ)
    (h : totalStages st.size < stage) :
    update_trainer st stage tick = Except.error "Invalid stage number!" := by
  have h1 : stage ≠ 1 := by
    have := totalStages_pos st.size
    omega
  unfold update_trainer
  rw [if_neg h1, if_neg (not_le.mpr h)]

/-- Witness for C8: stage 3 exceeds the two total stages of a size-8 run
and is rejected. -/
theorem invalid_stage_fatal_witness :
    update_trainer sampleState 3 0 = Except.error "Invalid stage number!" :=
  invalid_stage_fatal sampleState 3 0 (by simp [totalStages, sampleState, Nat.log2])

/-- C4: for every configuration, constructing a Trainer raises an
AttributeError before `__init__` completes, because `__init__` stores the
device under `devie` while `init_trainer` reads the never-assigned
`device`; likewise `train` reads `initial_size` though the attribute is
stored as `init_size`. -/
theorem trainer_construct_attribute_error (c : Config) :
    trainerConstruct c = Except.error "AttributeError: device" ∧
    getattrOrError (initAssignedAttrs c) trainSizeAttrRead =
      Except.error "AttributeError: initial_size" ∧
    "devie" ∈ initAssignedAttrs c ∧ "init_size" ∈ initAssignedAttrs c := by
  refine ⟨rfl, rfl, ?_, ?_⟩ <;> simp [initAssignedAttrs]

/-- C3 (refuting the claim): the source passes the result of calling
`_worker_init_fn_()` — Python None — as `worker_init_fn`, so every
data-loading worker starts from the identical inherited augmentation
state, whatever the parent state and worker indices: worker randomness is
not independently seeded. -/
theorem worker_seeding_not_independent (parentState w w' : ℕ) :
    workerAugState worker_init_fn_passed parentState w =
    workerAugState worker_init_fn_passed parentState w' := rfl

/-- C6: one adversarial step reports `Wasserstein_Dist` as the
pre-backward `loss_fake - loss_real`, computes the discriminator loss as
that distance plus the drift `0.001 * mean(pred_real^2)` plus the gradient
penalty, computes the generator loss as the negated mean discriminator
score on freshly generated fake data (scored by the just-stepped
discriminator), and returns `(G_loss, D_loss, Wasserstein_Dist)` while
leaving the EMA shadow untouched. -/
theorem update_network_losses (o : NetOracle) (st : GanState)
    (real_data z1 z2 : List (List ℚ)) :
    (update_network o st real_data z1 z2).2.2.2 =
      mean (o.Dforward st.Dparams (o.Gforward st.Gparams z1)) -
        mean (o.Dforward st.Dparams real_data) ∧
    (update_network o st real_data z1 z2).2.2.1 =
      (update_network o st real_data z1 z2).2.2.2 +
        (1 / 1000) * mean ((o.Dforward st.Dparams real_data).map (fun x => x ^ 2)) +
        o.gradPenaltyOracle st.Dparams real_data (o.Gforward st.Gparams z1) ∧
    (update_network o st real_data z1 z2).2.1 =
      -(mean (o.Dforward (update_network o st real_data z1 z2).1.Dparams
          (o.Gforward st.Gparams z2))) ∧
    (update_network o st real_data z1 z2).1.G_EMA_params = st.G_EMA_params :=
  ⟨rfl, rfl, rfl, rfl⟩

/-- C2: at every optimizer rebinding event (stage > 1, tick 0 or tick =
tickers) `update_trainer` succeeds and installs, for both networks, a
brand-new Adam whose hyperparameters are the usual
`lr, betas=(0,0.99), eps=1e-8, weight_decay=0`, whose param group holds
exactly the network's current parameter identities, and whose
per-parameter state keeps an old entry iff its key is among the new
parameter identities (entries with absent keys are dropped). -/
theorem optimizer_rebind_preserves_state (st : TrainerState) (stage tick : ℕ)
    (h1 : 1 < stage) (h2 : stage ≤ totalStages st.size) (h3 : st.tickers ≠ 0)
    (hk : tick = 0 ∨ tick = st.tickers) :
    ∃ st' alpha, update_trainer st stage tick = Except.ok (st', alpha) ∧
      st'.opt_G.hyper = adamHyper st.lr ∧ st'.opt_D.hyper = adamHyper st.lr ∧
      st'.opt_G.paramIds = netParamIds st'.G ∧
      st'.opt_D.paramIds = netParamIds st'.D ∧
      (∀ kv : ℕ × (ℚ × ℚ),
        kv ∈ st'.opt_G.state ↔ kv ∈ st.opt_G.state ∧ kv.1 ∈ netParamIds st'.G) ∧
      (∀ kv : ℕ × (ℚ × ℚ),
        kv ∈ st'.opt_D.state ↔ kv ∈ st.opt_D.state ∧ kv.1 ∈ netParamIds st'.D) := by
  have hne : stage ≠ 1 := by omega
  rcases hk with rfl | rfl
  · exact ⟨_, _, update_trainer_zero st stage hne h2 h3,
      rebindOpt_hyper _ _ _, rebindOpt_hyper _ _ _,
      rebindOpt_paramIds _ _ _, rebindOpt_paramIds _ _ _,
      fun kv => rebindOpt_mem_state _ _ _ kv,
      fun kv => rebindOpt_mem_state _ _ _ kv⟩
  · exact ⟨_, _, update_trainer_flush st stage hne h2 h3,
      rebindOpt_hyper _ _ _, rebindOpt_hyper _ _ _,
      rebindOpt_paramIds _ _ _, rebindOpt_paramIds _ _ _,
      fun kv => rebindOpt_mem_state _ _ _ kv,
      fun kv => rebindOpt_mem_state _ _ _ kv⟩

/-- Witness for C2: the growth rebind at stage 2, tick 0 of the sample
state. -/
theorem optimizer_rebind_preserves_state_witness :
    ∃ st' alpha, update_trainer sampleState 2 0 = Except.ok (st', alpha) ∧
      st'.opt_G.hyper = adamHyper sampleState.lr ∧
      st'.opt_D.hyper = adamHyper sampleState.lr ∧
      st'.opt_G.paramIds = netParamIds st'.G ∧
      st'.opt_D.paramIds = netParamIds st'.D ∧
      (∀ kv : ℕ × (ℚ × ℚ),
        kv ∈ st'.opt_G.state ↔ kv ∈ sampleState.opt_G.state ∧ kv.1 ∈ netParamIds st'.G) ∧
      (∀ kv : ℕ × (ℚ × ℚ),
        kv ∈ st'.opt_D.state ↔ kv ∈ sampleState.opt_D.state ∧ kv.1 ∈ netParamIds st'.D) :=
  optimizer_rebind_preserves_state sampleState 2 0 (by decide)
    (by simp [totalStages, sampleState, Nat.log2]) (by decide) (Or.inl rfl)

/-- C9: for every stage at least 2 (with a positive epoch unit,
augmentation count and batch count), the stage's epoch budget M is at
least twice the unit, so the ticks executed in the stage strictly exceed
the initialization-time `tickers`; and every tick past `tickers` takes the
defensive branch, which performs no growth, flush, alpha update or
rebinding — `update_trainer` returns the state unchanged. -/
theorem stage_ticks_exceed_tickers (u A B stage : ℕ) (st : TrainerState) (tick : ℕ)
    (hs : 2 ≤ stage) (hu : 0 < u) (hA : 0 < A) (hB : 0 < B)
    (h2 : stage ≤ totalStages st.size) (htk : st.tickers = tickersOf u A B)
    (hgt : st.tickers < tick) :
    2 * u ≤ epochBudget u stage ∧
    st.tickers < ticksInStage u A B stage ∧
    update_trainer st stage tick = Except.ok (st, archiveAlpha (get_alpha st.G)) := by
  have hM : 2 * u ≤ epochBudget u stage := by
    unfold epochBudget
    rw [if_neg (by omega : stage ≠ 1)]
    split
    · omega
    · omega
  have hAB : 0 < A * B := Nat.mul_pos hA hB
  have h3 : st.tickers ≠ 0 := by
    rw [htk]
    unfold tickersOf
    have : 0 < u * A * B := Nat.mul_pos (Nat.mul_pos hu hA) hB
    omega
  refine ⟨hM, ?_, update_trainer_defensive st stage tick (by omega) h2 h3 hgt⟩
  rw [htk]
  unfold tickersOf ticksInStage
  have hlt : u < epochBudget u stage := by omega
  calc u * A * B = u * (A * B) := by ring
    _ < epochBudget u stage * (A * B) := by
        exact mul_lt_mul_of_pos_right hlt hAB
    _ = epochBudget u stage * A * B := by ring

/-- Witness for C9: stage 2 of the sample state runs
`2 * 1 * 1 * 3 = 6 > 3 = tickers` ticks, and tick 4 is a no-op. -/
theorem stage_ticks_exceed_tickers_witness :
    2 * 1 ≤ epochBudget 1 2 ∧
    sampleState.tickers < ticksInStage 1 1 3 2 ∧
    update_trainer sampleState 2 4 =
      Except.ok (sampleState, archiveAlpha (get_alpha sampleState.G)) :=
  stage_ticks_exceed_tickers 1 1 3 2 sampleState 4 (by decide) (by decide)
    (by decide) (by decide) (by simp [totalStages, sampleState, Nat.log2])
    (by simp [sampleState, tickersOf]) (by decide)

/-- C10: the bare try/except around the alpha query maps every possible
exception — the absence of a fade-in state as well as a
topology-desynchronization failure — to alpha 1: `archiveAlpha` returns 1
on every error, and `update_trainer` on a state whose generator fade-in
traversal fails with a desynchronization error returns alpha 1. -/
theorem alpha_query_errors_swallowed (e : GetAlphaErr) (st : TrainerState)
    (stage tick : ℕ) (h1 : 1 < stage) (h2 : stage ≤ totalStages st.size)
    (h3 : st.tickers ≠ 0) (hgt : st.tickers < tick)
    (hc : st.G.fade = Fade.corrupted) :
    archiveAlpha (Except.error e) = 1 ∧
    update_trainer st stage tick = Except.ok (st, 1) := by
  refine ⟨rfl, ?_⟩
  rw [update_trainer_defensive st stage tick (by omega) h2 h3 hgt]
  simp [get_alpha, hc, archiveAlpha]

/-- A sample state whose generator is in the desynchronized fade state. -/
def corruptState : TrainerState :=
  { sampleState with G := { blocks := 2, fade := Fade.corrupted } }

/-- Witness for C10: the desynchronization error at a defensive tick of the
corrupted sample state is swallowed and alpha 1 is returned. -/
theorem alpha_query_errors_swallowed_witness :
    archiveAlpha (Except.error GetAlphaErr.topologyDesync) = 1 ∧
    update_trainer corruptState 2 4 = Except.ok (corruptState, 1) :=
  alpha_query_errors_swallowed GetAlphaErr.topologyDesync corruptState 2 4
    (by decide) (by simp [totalStages, corruptState, sampleState, Nat.log2])
    (by decide) (by decide) rfl

/-- Closed form of the EMA update when every shadow name has a live
counterpart: each shadow value is blended by
`decay * W_EMA + (1 - decay) * W_G`. -/
theorem update_moving_average_spec (decay : ℚ) (g : List (String × ℚ)) :
    ∀ ema : List (String × ℚ), (∀ p ∈ ema, (g.lookup p.1).isSome) →
    update_moving_average decay g ema =
      some (ema.map (fun p =>
        (p.1, decay * p.2 + (1 - decay) * ((g.lookup p.1).getD 0)))) := by
  intro ema
  induction ema with
  | nil => intro _; rfl
  | cons p rest ih =>
    intro h
    have hp := h p (List.mem_cons_self p rest)
    obtain ⟨v, hv⟩ := Option.isSome_iff_exists.mp hp
    have hrest := ih (fun q hq => h q (List.mem_cons_of_mem p hq))
    simp [update_moving_average, hv, hrest]

/-- C5: the EMA update blends every shadow parameter by
`decay * W_EMA + (1 - decay) * W_G`; with decay 1 it leaves the shadow
unchanged, and with decay 0 the updated shadow carries the same names and
exactly the live generator's values. -/
theorem ema_decay_endpoints (g ema : List (String × ℚ))
    (h : ∀ p ∈ ema, (g.lookup p.1).isSome) :
    update_moving_average 1 g ema = some ema ∧
    ∃ res, update_moving_average 0 g ema = some res ∧
      res.map Prod.fst = ema.map Prod.fst ∧
      ∀ p ∈ res, List.lookup p.1 g = some p.2 := by
  constructor
  · rw [update_moving_average_spec 1 g ema h]
    simp
  · refine ⟨_, update_moving_average_spec 0 g ema h, ?_, ?_⟩
    · simp [List.map_map, Function.comp]
    · intro p hp
      simp only [List.mem_map] at hp
      obtain ⟨q, hq, rfl⟩ := hp
      obtain ⟨v, hv⟩ := Option.isSome_iff_exists.mp (h q hq)
      simp [hv]

/-- Witness for C5: a one-parameter shadow with live value 2 and shadow
value 5. -/
theorem ema_decay_endpoints_witness :
    update_moving_average 1 [("w", (2 : ℚ))] [("w", (5 : ℚ))] =
      some [("w", (5 : ℚ))] ∧
    ∃ res, update_moving_average 0 [("w", (2 : ℚ))] [("w", (5 : ℚ))] = some res ∧
      res.map Prod.fst = [("w", (5 : ℚ))].map Prod.fst ∧
      ∀ p ∈ res, List.lookup p.1 [("w", (2 : ℚ))] = some p.2 :=
  ema_decay_endpoints [("w", (2 : ℚ))] [("w", (5 : ℚ))] (by decide)

/-- Running the ticks `0, 1, ..., t` of a stage beyond the first leaves all
three networks fading in with weight exactly `t / tickers`, which is also
the alpha value the call at tick `t` returns. -/
theorem runTicks_growing (st : TrainerState) (stage : ℕ)
    (h1 : stage ≠ 1) (h2 : stage ≤ totalStages st.size) :
    ∀ t, t < st.tickers →
    ∃ st', runTicks st stage t =
        Except.ok (st', (t : ℚ) / (st.tickers : ℚ)) ∧
      st'.G.fade = Fade.growing ((t : ℚ) / (st.tickers : ℚ)) ∧
      st'.D.fade = Fade.growing ((t : ℚ) / (st.tickers : ℚ)) ∧
      st'.G_EMA.fade = Fade.growing ((t : ℚ) / (st.tickers : ℚ)) ∧
      st'.tickers = st.tickers ∧ st'.size = st.size := by
  intro t
  induction t with
  | zero =>
    intro ht
    have h3 : st.tickers ≠ 0 := by omega
    refine ⟨{ st with G := grow_network st.G, D := grow_network st.D,
                      G_EMA := grow_network st.G_EMA,
                      opt_G := rebindOpt st.lr st.opt_G (netParamIds (grow_network st.G)),
                      opt_D := rebindOpt st.lr st.opt_D (netParamIds (grow_network st.D)) },
      ?_, ?_, ?_, ?_, rfl, rfl⟩
    · show update_trainer st stage 0 = _
      rw [update_trainer_zero st stage h1 h2 h3]
      norm_num
    · simp [grow_network]
    · simp [grow_network]
    · simp [grow_network]
  | succ t ih =>
    intro ht
    obtain ⟨stt, hrun, hG, hD, hE, htick, hsize⟩ := ih (by omega)
    have h2t : stage ≤ totalStages stt.size := by rw [hsize]; exact h2
    have hpos : (0 : ℚ) < (st.tickers : ℚ) := by
      exact_mod_cast Nat.pos_of_ne_zero (by omega)
    have key : (t : ℚ) / (st.tickers : ℚ) + 1 / (st.tickers : ℚ) =
        ((t + 1 : ℕ) : ℚ) / (st.tickers : ℚ) := by
      rw [div_add_div_same]
      push_cast
      ring_nf
    have hcl : (t : ℚ) / (st.tickers : ℚ) + 1 / (stt.tickers : ℚ) ≤ 1 := by
      rw [htick, key, div_le_one hpos]
      exact_mod_cast Nat.le_of_lt ht
    refine ⟨{ stt with
        G := { stt.G with fade := Fade.growing (((t + 1 : ℕ) : ℚ) / (st.tickers : ℚ)) },
        D := { stt.D with fade := Fade.growing (((t + 1 : ℕ) : ℚ) / (st.tickers : ℚ)) },
        G_EMA := { stt.G_EMA with
          fade := Fade.growing (((t + 1 : ℕ) : ℚ) / (st.tickers : ℚ)) } },
      ?_, rfl, rfl, rfl, htick, hsize⟩
    show (runTicks st stage t >>= fun p => update_trainer p.1 stage (t + 1)) = _
    rw [hrun, ok_bind]
    rw [update_trainer_mid stt stage (t + 1) ((t : ℚ) / (st.tickers : ℚ)) h1 h2t
      (Nat.succ_ne_zero t) (by omega) hG hD hE hcl]
    rw [htick, key]

/-- C1: for every stage beyond the first, running ticks `0, ..., t` of the
stage makes the controller return alpha exactly `t / tickers` for every
`0 < t < tickers` (each tick adds `delta = 1/tickers`), and alpha exactly
1 at `t = tickers`. -/
theorem alpha_linear_fade_in (st : TrainerState) (stage t : ℕ)
    (h1 : 1 < stage) (h2 : stage ≤ totalStages st.size) :
    (0 < t → t < st.tickers →
      ∃ st', runTicks st stage t =
        Except.ok (st', (t : ℚ) / (st.tickers : ℚ))) ∧
    (0 < st.tickers →
      ∃ st', runTicks st stage st.tickers = Except.ok (st', 1)) := by
  have hne : stage ≠ 1 := by omega
  constructor
  · intro _ htlt
    obtain ⟨st', hrun, -⟩ := runTicks_growing st stage hne h2 t htlt
    exact ⟨st', hrun⟩
  · intro h3
    obtain ⟨k, hk⟩ : ∃ k, st.tickers = k + 1 := ⟨st.tickers - 1, by omega⟩
    obtain ⟨stk, hrun, hG, hD, hE, htick, hsize⟩ :=
      runTicks_growing st stage hne h2 k (by omega)
    refine ⟨{ stk with
        G := flush_network stk.G,
        D := flush_network stk.D,
        G_EMA := flush_network stk.G_EMA,
        opt_G := rebindOpt stk.lr stk.opt_G (netParamIds (flush_network stk.G)),
        opt_D := rebindOpt stk.lr stk.opt_D (netParamIds (flush_network stk.D)) },
      ?_⟩
    rw [hk]
    show (runTicks st stage k >>= fun p => update_trainer p.1 stage (k + 1)) = _
    rw [hrun, ok_bind]
    have e : k + 1 = stk.tickers := by omega
    rw [e]
    exact update_trainer_flush stk stage hne (by rw [hsize]; exact h2) (by omega)

/-- Witness for C1: the size-8 sample state at stage 2 with three ticks per
stage — alpha 2/3 after tick 2, alpha 1 at tick 3. -/
theorem alpha_linear_fade_in_witness :
    (0 < 2 → 2 < sampleState.tickers →
      ∃ st', runTicks sampleState 2 2 =
        Except.ok (st', ((2 : ℕ) : ℚ) / (sampleState.tickers : ℚ))) ∧
    (0 < sampleState.tickers →
      ∃ st', runTicks sampleState 2 sampleState.tickers = Except.ok (st', 1)) :=
  alpha_linear_fade_in sampleState 2 2 (by decide)
    (by simp [totalStages, sampleState, Nat.log2])

end GenerativeSkinLesion
